import Mathlib

/-!
Shallow embedding of the content-generation-with-fallback pipeline of the
news-bot program (Go). Go strings are modelled as lists of characters; the
program only manipulates its strings by byte-count (`len`, slicing), and for
the content handled here bytes and characters coincide, so character lists
are the faithful model of the operations involved. External HTTP calls
(Gemini, Perplexity, football-data, the X publisher) are modelled as oracle
responses supplied in an environment record; the pipeline consumes them
exactly the way the Go code consumes the decoded responses.
-/

namespace NewsBotModel

/-- A Go string, modelled as a list of characters. -/
abbrev Str := List Char

/-- The character class trimmed by the Go standard-library whitespace trim
(`strings.TrimSpace`): ASCII whitespace plus the two Latin-1 space code
points. Higher Unicode space code points never occur in the data handled
here and are elided. -/
def isGoSpace (c : Char) : Bool :=
  c = ' ' || c = '\t' || c = '\n' || c = '\x0b' || c = '\x0c' || c = '\r' ||
  c = '\x85' || c = '\xa0'

/-- Remove every leading character satisfying `p`
(Go `strings.TrimLeft` with a one-class cutset). -/
def trimLeftBy (p : Char → Bool) : Str → Str
  | [] => []
  | c :: cs => if p c then trimLeftBy p cs else c :: cs

/-- Remove every trailing character satisfying `p`
(Go `strings.TrimRight` with a one-class cutset). -/
def trimRightBy (p : Char → Bool) (s : Str) : Str :=
  (trimLeftBy p s.reverse).reverse

/-- Go `strings.Trim`: removes every leading and every trailing character
of the cutset class `p`. -/
def goTrim (p : Char → Bool) (s : Str) : Str :=
  trimRightBy p (trimLeftBy p s)

/-- Go `strings.TrimSpace content`. -/
def goTrimSpace (s : Str) : Str := goTrim isGoSpace s

/-- The double-quote cutset of the Go call `strings.Trim(content, "\"")`. -/
def isQuote (c : Char) : Bool := c = '"'

/-- Go `strings.Trim(content, "\"")`. -/
def goTrimQuote (s : Str) : Str := goTrim isQuote s

/-- The three-character marker `...` appended on truncation. -/
def ellipsis : Str := ['.', '.', '.']

/-- The length cap with ellipsis: Go
`if len(content) > 280 { content = content[:277] + "..." }`. -/
def truncateTo280 (s : Str) : Str :=
  if 280 < s.length then s.take 277 ++ ellipsis else s

/-- The inline content validation of the Gemini paths (lines 674-679 of the
source): trim whitespace, trim double quotes from both ends, truncate to
280 with an ellipsis. -/
def validateContent (raw : Str) : Str :=
  truncateTo280 (goTrimQuote (goTrimSpace raw))

/-- The inline content validation of the Perplexity path (lines 509-512 of
the source): trim whitespace, truncate to 280; no quote stripping there. -/
def validatePerplexity (raw : Str) : Str :=
  truncateTo280 (goTrimSpace raw)

/-- Does the first character of the string satisfy `p`? `false` on the
empty string. -/
def headSat (p : Char → Bool) : Str → Bool
  | [] => false
  | c :: _ => p c

/-- Does the last character of the string satisfy `p`? `false` on the
empty string. -/
def lastSat (p : Char → Bool) (s : Str) : Bool :=
  headSat p s.reverse

-- Basic lemmas about the trimming primitives.

theorem trimLeftBy_of_headSat_false (p : Char → Bool) (s : Str)
    (h : headSat p s = false) : trimLeftBy p s = s := by
  cases s with
  | nil => rfl
  | cons c cs => simp [headSat] at h; simp [trimLeftBy, h]

theorem headSat_trimLeftBy (p : Char → Bool) (s : Str) :
    headSat p (trimLeftBy p s) = false := by
  induction s with
  | nil => rfl
  | cons c cs ih =>
    by_cases h : p c
    · simpa [trimLeftBy, h] using ih
    · simp [trimLeftBy, h, headSat]

theorem trimRightBy_of_lastSat_false (p : Char → Bool) (s : Str)
    (h : lastSat p s = false) : trimRightBy p s = s := by
  unfold trimRightBy
  rw [trimLeftBy_of_headSat_false p s.reverse h, List.reverse_reverse]

theorem lastSat_trimRightBy (p : Char → Bool) (s : Str) :
    lastSat p (trimRightBy p s) = false := by
  unfold lastSat trimRightBy
  rw [List.reverse_reverse]
  exact headSat_trimLeftBy p s.reverse

theorem trimLeftBy_append (p : Char → Bool) (xs ys : Str) :
    trimLeftBy p (xs ++ ys) =
      if trimLeftBy p xs = [] then trimLeftBy p ys
      else trimLeftBy p xs ++ ys := by
  induction xs with
  | nil => simp [trimLeftBy]
  | cons c cs ih =>
    by_cases h : p c
    · simpa [trimLeftBy, h] using ih
    · simp [trimLeftBy, h]

theorem headSat_trimRightBy (p : Char → Bool) (s : Str)
    (h : headSat p s = false) : headSat p (trimRightBy p s) = false := by
  cases s with
  | nil => rfl
  | cons c cs =>
    simp [headSat] at h
    unfold trimRightBy
    rw [List.reverse_cons, trimLeftBy_append]
    by_cases hnil : trimLeftBy p cs.reverse = []
    · simp [hnil, trimLeftBy, h, headSat]
    · simp [hnil, headSat, h]

theorem goTrim_of_clean (p : Char → Bool) (s : Str)
    (h1 : headSat p s = false) (h2 : lastSat p s = false) :
    goTrim p s = s := by
  unfold goTrim
  rw [trimLeftBy_of_headSat_false p s h1, trimRightBy_of_lastSat_false p s h2]

theorem headSat_goTrim (p : Char → Bool) (s : Str) :
    headSat p (goTrim p s) = false :=
  headSat_trimRightBy p _ (headSat_trimLeftBy p s)

theorem lastSat_goTrim (p : Char → Bool) (s : Str) :
    lastSat p (goTrim p s) = false :=
  lastSat_trimRightBy p _

theorem truncateTo280_length (s : Str) : (truncateTo280 s).length ≤ 280 := by
  unfold truncateTo280
  split
  · simp [ellipsis, List.length_append, List.length_take]
  · omega

theorem truncateTo280_of_short (s : Str) (h : s.length ≤ 280) :
    truncateTo280 s = s := by
  unfold truncateTo280
  split
  · omega
  · rfl

theorem validateContent_length (raw : Str) :
    (validateContent raw).length ≤ 280 :=
  truncateTo280_length _

theorem validatePerplexity_length (raw : Str) :
    (validatePerplexity raw).length ≤ 280 :=
  truncateTo280_length _

/-- The football-data match record (struct `PremierLeagueMatch`): team
names, UTC date string, status, and the full-time score. -/
structure FootballMatch where
  homeTeamName : Str
  awayTeamName : Str
  utcDate : Str
  status : Str
  fullTimeHome : Int
  fullTimeAway : Int
deriving DecidableEq

/-- Outcome of one Gemini `GenerateContent` call as the code observes it:
a transport/API failure, or a decoded response holding candidates, each
candidate holding its parts already rendered to strings. -/
inductive GemResp where
  | fail (msg : Str)
  | ok (candidates : List (List Str))
deriving DecidableEq

/-- Outcome of one Perplexity chat-completions call as the code observes
it: a transport/API/decode failure, or the decoded list of choice
contents. -/
inductive PerpResp where
  | fail (msg : Str)
  | ok (choices : List Str)
deriving DecidableEq

/-- Result of the fact fetch (`fetchLatestLeagueMatch` /
`fetchLatestPremierLeagueMatch`): the latest finished match, or an error
(transport failure, non-200 status, decode failure, or empty match list —
all returned as Go errors). -/
inductive FetchResult where
  | ok (m : FootballMatch)
  | err (msg : Str)
deriving DecidableEq

/-- Result of the publisher POST (`postToTwitter`). -/
inductive PostResult where
  | ok
  | err (msg : Str)
deriving DecidableEq

/-- The error values the modelled pipeline can return (each constructor is
one `fmt.Errorf` site of the source). -/
inductive BotError where
  | fetchFailed (msg : Str)
  | generateFailed (msg : Str)
  | noContentGenerated
  | perplexityKeyMissing
  | perplexityCallFailed (msg : Str)
  | perplexityNoChoices
  | postFailed (msg : Str)
deriving DecidableEq

/-- A Go function outcome: a value, a returned error, or a runtime panic
(the out-of-range string slice `UtcDate[:10]`). -/
inductive GoResult (α : Type) where
  | ok (val : α)
  | err (e : BotError)
  | panicked
deriving DecidableEq

/-- Externally observable calls the pipeline makes; `gemini true` is the
escalated-retry prompt, `perplexity` records the league name and match
record the fallback request is built from, `post` the text handed to the
publisher. -/
inductive CallEvent where
  | gemini (escalated : Bool)
  | perplexity (leagueName : Str) (m : FootballMatch)
  | post (text : Str)
deriving DecidableEq

/-- Go string slicing `s[:n]`: `none` models the runtime panic raised when
`n` exceeds the string length. -/
def goSliceTo (s : Str) (n : Nat) : Option Str :=
  if n ≤ s.length then some (s.take n) else none

/-- Extraction of the first textual candidate from a decoded Gemini
response: the code errors when `len(resp.Candidates) == 0` or
`len(resp.Candidates[0].Content.Parts) == 0`, otherwise uses
`resp.Candidates[0].Content.Parts[0]`. -/
def firstCandidatePart : List (List Str) → Option Str
  | [] => none
  | parts :: _ =>
    match parts with
    | [] => none
    | p :: _ => some p

/-- One run's external world: the fact-fetch outcome, the Gemini responses
to the initial and to the escalated prompt, whether the Perplexity API key
is configured, the Perplexity response, and the publisher outcome. -/
structure Env where
  fetchResult : FetchResult
  geminiResp1 : GemResp
  geminiResp2 : GemResp
  perplexityKeySet : Bool
  perplexityResp : PerpResp
  postResult : PostResult
deriving DecidableEq

/-- `fetchPerplexityFootballTweet`: refuses without an API key, builds the
request from the league name and the match (slicing `match.UtcDate[:10]`
into the prompt — a panic point), sends it, errors on failure or on an
empty choice list, otherwise trims and truncates the first choice.
Returns the result together with the emitted call events. -/
def fetchPerplexityFootballTweet (apiKeySet : Bool) (resp : PerpResp)
    (leagueName : Str) (m : FootballMatch) : GoResult Str × List CallEvent :=
  if apiKeySet = false then (.err .perplexityKeyMissing, [])
  else
    match goSliceTo m.utcDate 10 with
    | none => (.panicked, [])
    | some _ =>
      match resp with
      | .fail msg => (.err (.perplexityCallFailed msg), [.perplexity leagueName m])
      | .ok choices =>
        match choices with
        | [] => (.err .perplexityNoChoices, [.perplexity leagueName m])
        | c :: _ => (.ok (validatePerplexity c), [.perplexity leagueName m])

/-- Prepend already-emitted call events to the outcome of a nested call. -/
def withEvents (pre : List CallEvent)
    (p : GoResult Str × List CallEvent) : GoResult Str × List CallEvent :=
  (p.1, pre ++ p.2)

/-- The retry block of `generateLeagueNewsFromAPI` (lines 680-699),
entered when the first validated result is shorter than 100: one Gemini
call with the stronger prompt; on failure or an empty candidate/part list
fall back to Perplexity; otherwise trim, strip quotes and truncate the
retried first part and return it — with no further length check. -/
def leagueRetryStep (env : Env) (leagueName : Str) (m : FootballMatch) :
    GoResult Str × List CallEvent :=
  match env.geminiResp2 with
  | .fail _ =>
    withEvents [.gemini true]
      (fetchPerplexityFootballTweet env.perplexityKeySet
        env.perplexityResp leagueName m)
  | .ok cands2 =>
    match firstCandidatePart cands2 with
    | none =>
      withEvents [.gemini true]
        (fetchPerplexityFootballTweet env.perplexityKeySet
          env.perplexityResp leagueName m)
    | some raw2 => (.ok (validateContent raw2), [.gemini true])

/-- `generateLeagueNewsFromAPI` (lines 654-701): fetch the latest finished
match, slice its date (panic point), ask Gemini; on a call failure or an
empty candidate/part list fall back to Perplexity; otherwise trim, strip
quotes and truncate the first part; if the result is shorter than 100,
run the retry block `leagueRetryStep`. -/
def generateLeagueNewsFromAPI (env : Env) (leagueName : Str) :
    GoResult Str × List CallEvent :=
  match env.fetchResult with
  | .err msg => (.err (.fetchFailed msg), [])
  | .ok m =>
    match goSliceTo m.utcDate 10 with
    | none => (.panicked, [])
    | some _date =>
      match env.geminiResp1 with
      | .fail _ =>
        withEvents [.gemini false]
          (fetchPerplexityFootballTweet env.perplexityKeySet
            env.perplexityResp leagueName m)
      | .ok cands =>
        match firstCandidatePart cands with
        | none =>
          withEvents [.gemini false]
            (fetchPerplexityFootballTweet env.perplexityKeySet
              env.perplexityResp leagueName m)
        | some raw =>
          if (validateContent raw).length < 100 then
            withEvents [.gemini false] (leagueRetryStep env leagueName m)
          else (.ok (validateContent raw), [.gemini false])

/-- `generatePremierLeagueNewsFromAPI` (lines 363-389): fetch, slice the
date (panic point), one Gemini call, error on failure or empty response
(no fallback and no minimum-length check in this function), then trim,
strip quotes and truncate. -/
def generatePremierLeagueNewsFromAPI (fetchRes : FetchResult)
    (resp : GemResp) : GoResult Str × List CallEvent :=
  match fetchRes with
  | .err msg => (.err (.fetchFailed msg), [])
  | .ok m =>
    match goSliceTo m.utcDate 10 with
    | none => (.panicked, [])
    | some _date =>
      match resp with
      | .fail msg => (.err (.generateFailed msg), [.gemini false])
      | .ok cands =>
        match firstCandidatePart cands with
        | none => (.err .noContentGenerated, [.gemini false])
        | some raw => (.ok (validateContent raw), [.gemini false])

/-- One football-league arm of `Run` (lines 703-748): generate, abort on
error without posting, otherwise post the generated content. -/
def runLeague (env : Env) (leagueName : Str) :
    GoResult Unit × List CallEvent :=
  match generateLeagueNewsFromAPI env leagueName with
  | (.panicked, evs) => (.panicked, evs)
  | (.err e, evs) => (.err e, evs)
  | (.ok content, evs) =>
    match env.postResult with
    | .err msg => (.err (.postFailed msg), evs ++ [.post content])
    | .ok => (.ok (), evs ++ [.post content])

/-- Reading of the spec's words for the quote step, for comparison with
the code: strip at most a single enclosing pair of double quotes. -/
def specStripOneQuotePair (s : Str) : Str :=
  if 2 ≤ s.length ∧ headSat isQuote s = true ∧ lastSat isQuote s = true
  then (s.drop 1).dropLast else s

/-- Reading of the spec's validation contract built on
`specStripOneQuotePair`: trim whitespace, strip one quote layer,
truncate. -/
def specValidate (raw : Str) : Str :=
  truncateTo280 (specStripOneQuotePair (goTrimSpace raw))

/-- Claim C3 (confirmed): whenever the trimmed raw output is longer than
280 characters, the validated result is the first 277 characters of the
trimmed output with the three-character ellipsis appended, and its length
is exactly 280; the cut is purely character-count based. -/
theorem c3_truncation_law (raw : Str)
    (h : 280 < (goTrimQuote (goTrimSpace raw)).length) :
    validateContent raw =
      (goTrimQuote (goTrimSpace raw)).take 277 ++ ellipsis ∧
    (validateContent raw).length = 280 := by
  unfold validateContent truncateTo280
  rw [if_pos h]
  refine ⟨rfl, ?_⟩
  simp [ellipsis, List.length_append, List.length_take]
  omega

set_option maxRecDepth 40000 in
/-- Concrete instantiation of `c3_truncation_law` at a 300-character raw
output. -/
theorem c3_truncation_law_witness :
    validateContent (List.replicate 300 'a') =
      (goTrimQuote (goTrimSpace (List.replicate 300 'a'))).take 277 ++
        ellipsis ∧
    (validateContent (List.replicate 300 'a')).length = 280 :=
  c3_truncation_law (List.replicate 300 'a') (by decide)

/-- Claim C9 (confirmed): validation is idempotent on already-valid
strings: a string with no surrounding whitespace, no surrounding double
quotes and length within the 280 limit passes validation unchanged. -/
theorem c9_validate_idempotent (s : Str)
    (hws1 : headSat isGoSpace s = false) (hws2 : lastSat isGoSpace s = false)
    (hq1 : headSat isQuote s = false) (hq2 : lastSat isQuote s = false)
    (hlen : s.length ≤ 280) :
    validateContent s = s := by
  unfold validateContent goTrimSpace goTrimQuote
  rw [goTrim_of_clean _ s hws1 hws2, goTrim_of_clean _ s hq1 hq2,
    truncateTo280_of_short s hlen]

/-- Concrete instantiation of `c9_validate_idempotent` at the spec's
already-valid example text. -/
theorem c9_validate_idempotent_witness :
    validateContent ("Liverpool beat Everton 2-1 at Anfield! #LFC".toList) =
      "Liverpool beat Everton 2-1 at Anfield! #LFC".toList :=
  c9_validate_idempotent _ (by decide) (by decide) (by decide) (by decide)
    (by decide)

/-- Claim C5 counterexample: on a doubly-quoted input the code strips both
quote layers (Go `strings.Trim` removes every leading and trailing quote
character), while the claim's single-enclosing-pair reading keeps the
inner layer, so the two disagree. -/
theorem c5_single_quote_layer_counterexample :
    validateContent ['"', '"', 'L', 'F', 'C', '"', '"'] = ['L', 'F', 'C'] ∧
    specValidate ['"', '"', 'L', 'F', 'C', '"', '"'] =
      ['"', 'L', 'F', 'C', '"'] ∧
    validateContent ['"', '"', 'L', 'F', 'C', '"', '"'] ≠
      specValidate ['"', '"', 'L', 'F', 'C', '"', '"'] := by
  refine ⟨by decide, by decide, by decide⟩

/-- Claim C5 as amended (proved): validation trims surrounding whitespace
and then strips every leading and every trailing double-quote character
(all layers, each side independently), so the result — when no truncation
occurs — carries no leading or trailing quote; and a string already free
of surrounding whitespace and quotes that is within the length limit is
returned unchanged. -/
theorem c5_strip_all_quotes (s : Str) :
    ((goTrimQuote (goTrimSpace s)).length ≤ 280 →
      headSat isQuote (validateContent s) = false ∧
      lastSat isQuote (validateContent s) = false) ∧
    (headSat isGoSpace s = false → lastSat isGoSpace s = false →
      headSat isQuote s = false → lastSat isQuote s = false →
      s.length ≤ 280 → validateContent s = s) := by
  constructor
  · intro h
    unfold validateContent
    rw [truncateTo280_of_short _ h]
    exact ⟨headSat_goTrim _ _, lastSat_goTrim _ _⟩
  · intro h1 h2 h3 h4 h5
    unfold validateContent goTrimSpace goTrimQuote
    rw [goTrim_of_clean _ s h1 h2, goTrim_of_clean _ s h3 h4,
      truncateTo280_of_short s h5]

/-- Concrete instantiation of `c5_strip_all_quotes` at a doubly-quoted
input and at an already-clean input. -/
theorem c5_strip_all_quotes_witness :
    (headSat isQuote (validateContent ['"', '"', 'x', '"', '"']) = false ∧
      lastSat isQuote (validateContent ['"', '"', 'x', '"', '"']) = false) ∧
    validateContent ['L', 'F', 'C'] = ['L', 'F', 'C'] :=
  ⟨(c5_strip_all_quotes ['"', '"', 'x', '"', '"']).1 (by decide),
    (c5_strip_all_quotes ['L', 'F', 'C']).2 (by decide) (by decide)
      (by decide) (by decide) (by decide)⟩

-- Helper lemmas about the pipeline functions.

theorem withEvents_fst (pre : List CallEvent)
    (p : GoResult Str × List CallEvent) : (withEvents pre p).1 = p.1 := rfl

theorem withEvents_snd (pre : List CallEvent)
    (p : GoResult Str × List CallEvent) :
    (withEvents pre p).2 = pre ++ p.2 := rfl

theorem fetchPerplexity_ok_length (k : Bool) (resp : PerpResp) (ln : Str)
    (m : FootballMatch) (s : Str)
    (h : (fetchPerplexityFootballTweet k resp ln m).1 = .ok s) :
    s.length ≤ 280 := by
  unfold fetchPerplexityFootballTweet at h
  repeat' split at h
  all_goals simp_all
  exact h ▸ validatePerplexity_length _

theorem leagueRetryStep_ok_length (env : Env) (ln content : Str)
    (m : FootballMatch)
    (h : (leagueRetryStep env ln m).1 = .ok content) :
    content.length ≤ 280 := by
  unfold leagueRetryStep at h
  repeat' split at h
  · rw [withEvents_fst] at h
    exact fetchPerplexity_ok_length _ _ _ _ _ h
  · rw [withEvents_fst] at h
    exact fetchPerplexity_ok_length _ _ _ _ _ h
  · simp at h
    exact h ▸ validateContent_length _

theorem generateLeague_ok_fst (env : Env) (ln content : Str)
    (h : (generateLeagueNewsFromAPI env ln).1 = .ok content) :
    content.length ≤ 280 := by
  unfold generateLeagueNewsFromAPI at h
  repeat' split at h
  · simp at h
  · simp at h
  · rw [withEvents_fst] at h
    exact fetchPerplexity_ok_length _ _ _ _ _ h
  · rw [withEvents_fst] at h
    exact fetchPerplexity_ok_length _ _ _ _ _ h
  · rw [withEvents_fst] at h
    exact leagueRetryStep_ok_length _ _ _ _ h
  · simp at h
    exact h ▸ validateContent_length _

theorem generateLeague_ok_length (env : Env) (ln content : Str)
    (evs : List CallEvent)
    (h : generateLeagueNewsFromAPI env ln = (.ok content, evs)) :
    content.length ≤ 280 :=
  generateLeague_ok_fst env ln content (by rw [h])

theorem fetchPerplexity_no_post (k : Bool) (resp : PerpResp) (ln : Str)
    (m : FootballMatch) (t : Str) :
    CallEvent.post t ∉ (fetchPerplexityFootballTweet k resp ln m).2 := by
  unfold fetchPerplexityFootballTweet
  repeat' split
  all_goals simp

theorem leagueRetryStep_no_post (env : Env) (ln t : Str)
    (m : FootballMatch) :
    CallEvent.post t ∉ (leagueRetryStep env ln m).2 := by
  unfold leagueRetryStep
  repeat' split
  all_goals simp_all [withEvents_snd, fetchPerplexity_no_post]

theorem generateLeague_no_post (env : Env) (ln t : Str) :
    CallEvent.post t ∉ (generateLeagueNewsFromAPI env ln).2 := by
  unfold generateLeagueNewsFromAPI
  repeat' split
  all_goals
    simp_all [withEvents_snd, fetchPerplexity_no_post, leagueRetryStep_no_post]

theorem fetchPerplexity_cases (k : Bool) (resp : PerpResp) (ln : Str)
    (m : FootballMatch) :
    (∃ e, fetchPerplexityFootballTweet k resp ln m = (.err e, [])) ∨
    fetchPerplexityFootballTweet k resp ln m = (.panicked, []) ∨
    (∃ msg, resp = .fail msg ∧
      fetchPerplexityFootballTweet k resp ln m =
        (.err (.perplexityCallFailed msg), [.perplexity ln m])) ∨
    (resp = .ok [] ∧
      fetchPerplexityFootballTweet k resp ln m =
        (.err .perplexityNoChoices, [.perplexity ln m])) ∨
    (∃ c rest, resp = .ok (c :: rest) ∧
      fetchPerplexityFootballTweet k resp ln m =
        (.ok (validatePerplexity c), [.perplexity ln m])) := by
  unfold fetchPerplexityFootballTweet
  repeat' split
  all_goals simp_all

theorem fetchPerplexity_ok_inv (k : Bool) (resp : PerpResp) (ln : Str)
    (m : FootballMatch) (s : Str)
    (h : (fetchPerplexityFootballTweet k resp ln m).1 = .ok s) :
    ∃ c rest, resp = .ok (c :: rest) ∧ s = validatePerplexity c ∧
      (fetchPerplexityFootballTweet k resp ln m).2 = [.perplexity ln m] := by
  rcases fetchPerplexity_cases k resp ln m with
    ⟨e, hc⟩ | hc | ⟨msg, hr, hc⟩ | ⟨hr, hc⟩ | ⟨c, rest, hr, hc⟩ <;>
    rw [hc] at h ⊢ <;> simp_all

theorem leagueRetryStep_snd (env : Env) (ln : Str) (m : FootballMatch) :
    ∃ rest, (leagueRetryStep env ln m).2 = .gemini true :: rest := by
  unfold leagueRetryStep
  repeat' split
  all_goals simp [withEvents]

theorem leagueRetryStep_ok_inv (env : Env) (ln content : Str)
    (m : FootballMatch)
    (h : (leagueRetryStep env ln m).1 = .ok content) :
    (∃ cands2 raw2, env.geminiResp2 = .ok cands2 ∧
      firstCandidatePart cands2 = some raw2 ∧
      content = validateContent raw2) ∨
    (∃ c rest, env.perplexityResp = .ok (c :: rest) ∧
      content = validatePerplexity c) := by
  unfold leagueRetryStep at h
  repeat' split at h
  · rw [withEvents_fst] at h
    obtain ⟨c, rest, hr, hs, _⟩ := fetchPerplexity_ok_inv _ _ _ _ _ h
    exact Or.inr ⟨c, rest, hr, hs⟩
  · rw [withEvents_fst] at h
    obtain ⟨c, rest, hr, hs, _⟩ := fetchPerplexity_ok_inv _ _ _ _ _ h
    exact Or.inr ⟨c, rest, hr, hs⟩
  · simp at h
    rename_i a cands2 hg b raw2 hp
    exact Or.inl ⟨cands2, raw2, hg, hp, h.symm⟩

/-- Claim C4 (confirmed): on every provider path, any text returned by the
generation pipeline has length at most 280, the fallback path included;
and every text handed to the publisher within a run also has length at
most 280. -/
theorem c4_max_length :
    (∀ env ln content evs,
      generateLeagueNewsFromAPI env ln = (.ok content, evs) →
      content.length ≤ 280) ∧
    (∀ k resp ln m s evs,
      fetchPerplexityFootballTweet k resp ln m = (.ok s, evs) →
      s.length ≤ 280) ∧
    (∀ env ln content,
      CallEvent.post content ∈ (runLeague env ln).2 →
      content.length ≤ 280) := by
  refine ⟨fun env ln content evs h => generateLeague_ok_length _ _ _ _ h,
    fun k resp ln m s evs h =>
      fetchPerplexity_ok_length k resp ln m s (by rw [h]),
    fun env ln content h => ?_⟩
  have hnp := generateLeague_no_post env ln content
  unfold runLeague at h
  split at h
  next evs heq =>
    rw [heq] at hnp
    exact absurd h hnp
  next e evs heq =>
    rw [heq] at hnp
    exact absurd h hnp
  next c evs heq =>
    rw [heq] at hnp
    split at h
    all_goals
      simp only [List.mem_append, List.mem_singleton] at h
      rcases h with h | h
      · exact absurd h hnp
      · cases h
        exact generateLeague_ok_length env ln content evs heq

set_option maxRecDepth 40000 in
/-- Concrete instantiation of `c4_max_length`: a run whose primary
response is a 120-character text returns it, and it is within the 280
limit. -/
theorem c4_max_length_witness :
    (List.replicate 120 'a').length ≤ 280 :=
  c4_max_length.1
    { fetchResult := .ok
        { homeTeamName := "Liverpool".toList
          awayTeamName := "Everton".toList
          utcDate := "2024-01-01T00:00:00Z".toList
          status := "FINISHED".toList
          fullTimeHome := 2
          fullTimeAway := 1 }
      geminiResp1 := .ok [[List.replicate 120 'a']]
      geminiResp2 := .fail []
      perplexityKeySet := true
      perplexityResp := .ok []
      postResult := .ok }
    ("PremierLeague".toList) (List.replicate 120 'a') [.gemini false]
    (by decide)

theorem leagueRetryStep_snd_ne_nil (env : Env) (ln : Str)
    (m : FootballMatch) : (leagueRetryStep env ln m).2 ≠ [] := by
  obtain ⟨rest, hr⟩ := leagueRetryStep_snd env ln m
  simp [hr]

/-- Fetched match used by the counterexample run of claim C1. -/
def c1Match : FootballMatch :=
  { homeTeamName := "Arsenal".toList
    awayTeamName := "Tottenham".toList
    utcDate := "2024-05-19T15:00:00Z".toList
    status := "FINISHED".toList
    fullTimeHome := 2
    fullTimeAway := 1 }

/-- Counterexample run for claim C1: both Gemini attempts answer with
short texts, the fallback is never consulted. -/
def c1Env : Env :=
  { fetchResult := .ok c1Match
    geminiResp1 := .ok [["Arsenal win! #PL".toList]]
    geminiResp2 := .ok [["Arsenal beat Spurs 2-1. #PL".toList]]
    perplexityKeySet := true
    perplexityResp := .ok ["A long fallback tweet about the match".toList]
    postResult := .ok }

/-- Claim C1 counterexample: a fact-backed run in which the escalated
retry still yields a 27-character text returns that short text
successfully — no terminal error is raised and the 100-character minimum
is not enforced on the returned value. -/
theorem c1_short_success_counterexample :
    generateLeagueNewsFromAPI c1Env ("PremierLeague".toList) =
      (.ok ("Arsenal beat Spurs 2-1. #PL".toList),
        [.gemini false, .gemini true]) ∧
    ("Arsenal beat Spurs 2-1. #PL".toList).length < 100 :=
  ⟨by decide, by decide⟩

/-- Claim C1 as amended (proved): the 100-character minimum is only
enforced as a gate into the escalated retry: when generation succeeds on
the first Gemini attempt alone (the emitted calls are exactly one
non-escalated Gemini call), the returned text has length at least 100;
after the escalated retry, and on the fallback path, the result is
returned with no minimum-length check, and no terminal too-short error
exists. -/
theorem c1_first_attempt_min_length (env : Env) (ln content : Str)
    (h : generateLeagueNewsFromAPI env ln = (.ok content, [.gemini false])) :
    100 ≤ content.length := by
  unfold generateLeagueNewsFromAPI at h
  repeat' split at h
  · simp at h
  · simp at h
  · simp only [withEvents, Prod.ext_iff] at h
    rcases h with ⟨h1, h2⟩
    simp at h2
    obtain ⟨c, rest, hr, hs, hevs⟩ := fetchPerplexity_ok_inv _ _ _ _ _ h1
    rw [hevs] at h2
    simp at h2
  · simp only [withEvents, Prod.ext_iff] at h
    rcases h with ⟨h1, h2⟩
    simp at h2
    obtain ⟨c, rest, hr, hs, hevs⟩ := fetchPerplexity_ok_inv _ _ _ _ _ h1
    rw [hevs] at h2
    simp at h2
  · simp only [withEvents, Prod.ext_iff] at h
    rcases h with ⟨h1, h2⟩
    simp at h2
    exact absurd h2 (leagueRetryStep_snd_ne_nil env ln _)
  · rename_i hlen
    simp only [Prod.mk.injEq, GoResult.ok.injEq] at h
    rcases h with ⟨h1, h2⟩
    subst h1
    omega

set_option maxRecDepth 40000 in
/-- Concrete instantiation of `c1_first_attempt_min_length`: a run whose
first Gemini attempt already returns a 110-character text. -/
theorem c1_first_attempt_min_length_witness :
    100 ≤ (List.replicate 110 'b').length :=
  c1_first_attempt_min_length
    { fetchResult := .ok c1Match
      geminiResp1 := .ok [[List.replicate 110 'b']]
      geminiResp2 := .fail []
      perplexityKeySet := true
      perplexityResp := .ok []
      postResult := .ok }
    ("PremierLeague".toList) (List.replicate 110 'b') (by decide)

/-- Fetched match used by the counterexample run of claim C2. -/
def c2Match : FootballMatch :=
  { homeTeamName := "Barcelona".toList
    awayTeamName := "Real Madrid".toList
    utcDate := "2024-04-21T19:00:00Z".toList
    status := "FINISHED".toList
    fullTimeHome := 2
    fullTimeAway := 1 }

/-- Counterexample run for claim C2: both Gemini attempts answer with
short texts; the trace shows the fallback is not invoked. -/
def c2Env : Env :=
  { fetchResult := .ok c2Match
    geminiResp1 := .ok [["Short. #LaLiga".toList]]
    geminiResp2 := .ok [["Barcelona edge Madrid 2-1! #LaLiga".toList]]
    perplexityKeySet := true
    perplexityResp := .ok ["A detailed fallback tweet".toList]
    postResult := .ok }

/-- Claim C2 counterexample: when the primary result is still shorter
than 100 after the escalated retry, the pipeline returns the short retry
text; the emitted calls are exactly the two Gemini calls — the fallback
provider is not invoked. -/
theorem c2_no_fallback_after_short_retry_counterexample :
    generateLeagueNewsFromAPI c2Env ("LaLiga".toList) =
      (.ok ("Barcelona edge Madrid 2-1! #LaLiga".toList),
        [.gemini false, .gemini true]) ∧
    ("Barcelona edge Madrid 2-1! #LaLiga".toList).length < 100 :=
  ⟨by decide, by decide⟩

/-- Claim C2 as amended (proved): the Perplexity fallback is invoked for
every primary provider error and for every empty/no-candidate response,
on the initial attempt and on the escalated retry alike; but a result
that is still too short after the escalated retry is returned as-is —
the fallback is not invoked in that case. -/
theorem c2_fallback_on_provider_failure (env : Env) (ln : Str)
    (m : FootballMatch) (hf : env.fetchResult = .ok m)
    (hd : 10 ≤ m.utcDate.length) :
    (∀ msg, env.geminiResp1 = .fail msg →
      generateLeagueNewsFromAPI env ln =
        withEvents [.gemini false]
          (fetchPerplexityFootballTweet env.perplexityKeySet
            env.perplexityResp ln m)) ∧
    (∀ cands, env.geminiResp1 = .ok cands →
      firstCandidatePart cands = none →
      generateLeagueNewsFromAPI env ln =
        withEvents [.gemini false]
          (fetchPerplexityFootballTweet env.perplexityKeySet
            env.perplexityResp ln m)) ∧
    (∀ cands raw, env.geminiResp1 = .ok cands →
      firstCandidatePart cands = some raw →
      (validateContent raw).length < 100 →
      (∀ msg2, env.geminiResp2 = .fail msg2 →
        generateLeagueNewsFromAPI env ln =
          withEvents [.gemini false, .gemini true]
            (fetchPerplexityFootballTweet env.perplexityKeySet
              env.perplexityResp ln m)) ∧
      (∀ cands2, env.geminiResp2 = .ok cands2 →
        firstCandidatePart cands2 = none →
        generateLeagueNewsFromAPI env ln =
          withEvents [.gemini false, .gemini true]
            (fetchPerplexityFootballTweet env.perplexityKeySet
              env.perplexityResp ln m)) ∧
      (∀ cands2 raw2, env.geminiResp2 = .ok cands2 →
        firstCandidatePart cands2 = some raw2 →
        generateLeagueNewsFromAPI env ln =
          (.ok (validateContent raw2), [.gemini false, .gemini true]))) := by
  refine ⟨fun msg hg => ?_, fun cands hg hp => ?_,
    fun cands raw hg hp hlen =>
      ⟨fun msg2 hg2 => ?_, fun cands2 hg2 hp2 => ?_,
        fun cands2 raw2 hg2 hp2 => ?_⟩⟩
  all_goals
    simp_all [generateLeagueNewsFromAPI, leagueRetryStep, goSliceTo,
      withEvents]

/-- Fetched match used by the witness run of claim C2. -/
def c2wMatch : FootballMatch :=
  { homeTeamName := "Inter".toList
    awayTeamName := "Milan".toList
    utcDate := "2024-04-22T19:45:00Z".toList
    status := "FINISHED".toList
    fullTimeHome := 1
    fullTimeAway := 0 }

/-- Witness run for `c2_fallback_on_provider_failure`: the primary call
fails outright. -/
def c2wEnv : Env :=
  { fetchResult := .ok c2wMatch
    geminiResp1 := .fail "rate limited".toList
    geminiResp2 := .fail []
    perplexityKeySet := true
    perplexityResp := .ok ["Inter sink Milan 1-0 in the derby".toList]
    postResult := .ok }

/-- Concrete instantiation of `c2_fallback_on_provider_failure`: on a
primary provider error the run equals the fallback call's outcome. -/
theorem c2_fallback_on_provider_failure_witness :
    generateLeagueNewsFromAPI c2wEnv ("SerieA".toList) =
      withEvents [.gemini false]
        (fetchPerplexityFootballTweet c2wEnv.perplexityKeySet
          c2wEnv.perplexityResp ("SerieA".toList) c2wMatch) :=
  (c2_fallback_on_provider_failure c2wEnv ("SerieA".toList) c2wMatch
    (by decide) (by decide)).1 ("rate limited".toList) (by decide)

/-- Fetched match used by the runs of claim C6. -/
def c6Match : FootballMatch :=
  { homeTeamName := "Bayern".toList
    awayTeamName := "Dortmund".toList
    utcDate := "2024-03-30T17:30:00Z".toList
    status := "FINISHED".toList
    fullTimeHome := 0
    fullTimeAway := 2 }

/-- Run for claim C6: both Gemini attempts answer with whitespace-only
parts, which trim to the empty string. -/
def c6Env : Env :=
  { fetchResult := .ok c6Match
    geminiResp1 := .ok [[" ".toList]]
    geminiResp2 := .ok [["\t".toList]]
    perplexityKeySet := true
    perplexityResp := .ok ["A detailed fallback tweet".toList]
    postResult := .ok }

/-- Claim C6 counterexample: a whitespace-only raw output trims to the
empty string, yet no EmptyResponse error is raised — the run returns the
empty string as a successful result (after the too-short retry also
trims to empty). -/
theorem c6_empty_returned_ok_counterexample :
    generateLeagueNewsFromAPI c6Env ("Bundesliga".toList) =
      (.ok [], [.gemini false, .gemini true]) :=
  by decide

/-- Claim C6 as amended (proved): only a response with zero candidates or
zero parts is treated as an error (routed to the fallback); a raw output
that trims to the empty string is not rejected — it is length 0, hence
shorter than 100, so it enters the escalated-retry block, and if the
retry's first part also trims to empty the empty string is returned as a
successful result. -/
theorem c6_trimmed_empty_not_rejected (env : Env) (ln : Str)
    (m : FootballMatch) (cands : List (List Str)) (raw : Str)
    (hf : env.fetchResult = .ok m) (hd : 10 ≤ m.utcDate.length)
    (hg : env.geminiResp1 = .ok cands)
    (hp : firstCandidatePart cands = some raw)
    (he : validateContent raw = []) :
    generateLeagueNewsFromAPI env ln =
      withEvents [.gemini false] (leagueRetryStep env ln m) ∧
    (∀ cands2 raw2, env.geminiResp2 = .ok cands2 →
      firstCandidatePart cands2 = some raw2 →
      generateLeagueNewsFromAPI env ln =
        (.ok (validateContent raw2), [.gemini false, .gemini true])) := by
  constructor
  · simp_all [generateLeagueNewsFromAPI, goSliceTo]
  · intro cands2 raw2 hg2 hp2
    simp_all [generateLeagueNewsFromAPI, leagueRetryStep, goSliceTo,
      withEvents]

/-- Concrete instantiation of `c6_trimmed_empty_not_rejected` at the
whitespace-only run. -/
theorem c6_trimmed_empty_not_rejected_witness :
    generateLeagueNewsFromAPI c6Env ("Bundesliga".toList) =
      (.ok (validateContent ("\t".toList)),
        [.gemini false, .gemini true]) :=
  (c6_trimmed_empty_not_rejected c6Env ("Bundesliga".toList) c6Match
    [[" ".toList]] (" ".toList) (by decide) (by decide) (by decide)
    (by decide) (by decide)).2 [["\t".toList]] ("\t".toList) (by decide)
    (by decide)

/-- Claim C7 (confirmed): when the primary provider fails with a provider
error — a transport/API failure or a response with zero candidates or
zero parts — the final text is the fallback provider's validated output,
requested for the same fact record; and every successful result is
exactly one provider's validated output — either a Gemini part or a
Perplexity choice, never a mixture. -/
theorem c7_provider_fallback :
    (∀ env ln m c rest, env.fetchResult = .ok m →
      10 ≤ m.utcDate.length →
      ((∃ msg, env.geminiResp1 = .fail msg) ∨
        (∃ cands, env.geminiResp1 = .ok cands ∧
          firstCandidatePart cands = none)) →
      env.perplexityKeySet = true → env.perplexityResp = .ok (c :: rest) →
      generateLeagueNewsFromAPI env ln =
        (.ok (validatePerplexity c),
          [.gemini false, .perplexity ln m])) ∧
    (∀ env ln content evs,
      generateLeagueNewsFromAPI env ln = (.ok content, evs) →
      (∃ raw, ((∃ cands, env.geminiResp1 = .ok cands ∧
            firstCandidatePart cands = some raw) ∨
          (∃ cands2, env.geminiResp2 = .ok cands2 ∧
            firstCandidatePart cands2 = some raw)) ∧
        content = validateContent raw) ∨
      (∃ c rest, env.perplexityResp = .ok (c :: rest) ∧
        content = validatePerplexity c)) := by
  constructor
  · intro env ln m c rest hf hd hfail hk hr
    rcases hfail with ⟨msg, hg⟩ | ⟨cands, hg, hp⟩
    · simp_all [generateLeagueNewsFromAPI, fetchPerplexityFootballTweet,
        goSliceTo, withEvents]
    · simp_all [generateLeagueNewsFromAPI, fetchPerplexityFootballTweet,
        goSliceTo, withEvents]
  · intro env ln content evs h
    unfold generateLeagueNewsFromAPI at h
    repeat' split at h
    · simp at h
    · simp at h
    · simp only [withEvents, Prod.ext_iff] at h
      obtain ⟨c, rest, hr, hs, _⟩ := fetchPerplexity_ok_inv _ _ _ _ _ h.1
      exact Or.inr ⟨c, rest, hr, hs⟩
    · simp only [withEvents, Prod.ext_iff] at h
      obtain ⟨c, rest, hr, hs, _⟩ := fetchPerplexity_ok_inv _ _ _ _ _ h.1
      exact Or.inr ⟨c, rest, hr, hs⟩
    · simp only [withEvents, Prod.ext_iff] at h
      rcases leagueRetryStep_ok_inv _ _ _ _ h.1 with
        ⟨cands2, raw2, hg2, hp2, hc⟩ | ⟨c, rest, hr, hs⟩
      · exact Or.inl ⟨raw2, Or.inr ⟨cands2, hg2, hp2⟩, hc⟩
      · exact Or.inr ⟨c, rest, hr, hs⟩
    · simp only [Prod.mk.injEq, GoResult.ok.injEq] at h
      rename_i a cands hg b raw hp hlen
      exact Or.inl ⟨raw, Or.inl ⟨cands, hg, hp⟩, h.1.symm⟩

/-- Fetched match used by the witness run of claim C7. -/
def c7Match : FootballMatch :=
  { homeTeamName := "PSG".toList
    awayTeamName := "Lyon".toList
    utcDate := "2024-04-21T19:00:00Z".toList
    status := "FINISHED".toList
    fullTimeHome := 4
    fullTimeAway := 1 }

/-- Witness run for claim C7: primary transport/API failure, fallback
answers. -/
def c7Env : Env :=
  { fetchResult := .ok c7Match
    geminiResp1 := .fail "boom".toList
    geminiResp2 := .fail []
    perplexityKeySet := true
    perplexityResp := .ok ["PSG cruise past Lyon".toList]
    postResult := .ok }

/-- Witness run for claim C7: primary response with zero candidates,
fallback answers. -/
def c7EnvB : Env :=
  { fetchResult := .ok c7Match
    geminiResp1 := .ok []
    geminiResp2 := .fail []
    perplexityKeySet := true
    perplexityResp := .ok ["PSG cruise past Lyon".toList]
    postResult := .ok }

/-- Concrete instantiation of `c7_provider_fallback` at both primary
provider-error modes: a transport/API failure and a zero-candidate
response. -/
theorem c7_provider_fallback_witness :
    generateLeagueNewsFromAPI c7Env ("Ligue1".toList) =
      (.ok (validatePerplexity ("PSG cruise past Lyon".toList)),
        [.gemini false, .perplexity ("Ligue1".toList) c7Match]) ∧
    generateLeagueNewsFromAPI c7EnvB ("Ligue1".toList) =
      (.ok (validatePerplexity ("PSG cruise past Lyon".toList)),
        [.gemini false, .perplexity ("Ligue1".toList) c7Match]) :=
  ⟨c7_provider_fallback.1 c7Env ("Ligue1".toList) c7Match
      ("PSG cruise past Lyon".toList) [] (by decide) (by decide)
      (Or.inl ⟨"boom".toList, by decide⟩) (by decide) (by decide),
    c7_provider_fallback.1 c7EnvB ("Ligue1".toList) c7Match
      ("PSG cruise past Lyon".toList) [] (by decide) (by decide)
      (Or.inr ⟨[], by decide, by decide⟩) (by decide) (by decide)⟩

/-- Claim C8 (confirmed): when the fact fetch fails, the run aborts with
the fetch error; the emitted call list is empty — neither generation
provider is invoked, no synthetic fact is substituted, and nothing is
posted. -/
theorem c8_fetch_failure_aborts (env : Env) (ln msg : Str)
    (h : env.fetchResult = .err msg) :
    runLeague env ln = (.err (.fetchFailed msg), []) := by
  simp [runLeague, generateLeagueNewsFromAPI, h]

/-- Run for the witness of claim C8: empty match list from the data
source. -/
def c8Env : Env :=
  { fetchResult := .err ("no matches found".toList)
    geminiResp1 := .ok [["Some tweet".toList]]
    geminiResp2 := .ok [["Some tweet".toList]]
    perplexityKeySet := true
    perplexityResp := .ok ["Some tweet".toList]
    postResult := .ok }

/-- Concrete instantiation of `c8_fetch_failure_aborts`. -/
theorem c8_fetch_failure_aborts_witness :
    runLeague c8Env ("IrishPremierDivision".toList) =
      (.err (.fetchFailed ("no matches found".toList)), []) :=
  c8_fetch_failure_aborts c8Env ("IrishPremierDivision".toList)
    ("no matches found".toList) (by decide)

theorem goSliceTo_of_le (s : Str) (h : 10 ≤ s.length) :
    goSliceTo s 10 = some (s.take 10) := by
  simp [goSliceTo, h]

theorem fetchPerplexity_fst_ne_panicked (k : Bool) (resp : PerpResp)
    (ln : Str) (m : FootballMatch) (hd : 10 ≤ m.utcDate.length) :
    (fetchPerplexityFootballTweet k resp ln m).1 ≠ .panicked := by
  unfold fetchPerplexityFootballTweet
  repeat' split
  all_goals simp_all [goSliceTo]

theorem leagueRetryStep_fst_ne_panicked (env : Env) (ln : Str)
    (m : FootballMatch) (hd : 10 ≤ m.utcDate.length) :
    (leagueRetryStep env ln m).1 ≠ .panicked := by
  unfold leagueRetryStep
  repeat' split
  all_goals
    simp_all [withEvents_fst,
      fetchPerplexity_fst_ne_panicked env.perplexityKeySet
        env.perplexityResp ln m hd]

/-- Claim C10 (confirmed): the fact-backed generation functions slice the
first 10 characters of the fetched match's UtcDate unconditionally: a
UtcDate shorter than 10 makes both `generateLeagueNewsFromAPI` and
`generatePremierLeagueNewsFromAPI` panic before any provider call; and a
UtcDate of length at least 10 is exactly the precondition excluding the
panic outcome for the league pipeline. -/
theorem c10_utc_date_slice_totality :
    (∀ env ln m, env.fetchResult = .ok m → m.utcDate.length < 10 →
      generateLeagueNewsFromAPI env ln = (.panicked, [])) ∧
    (∀ fr resp m, fr = .ok m → m.utcDate.length < 10 →
      generatePremierLeagueNewsFromAPI fr resp = (.panicked, [])) ∧
    (∀ env ln m, env.fetchResult = .ok m → 10 ≤ m.utcDate.length →
      (generateLeagueNewsFromAPI env ln).1 ≠ .panicked) := by
  refine ⟨fun env ln m hf hd => ?_, fun fr resp m hf hd => ?_,
    fun env ln m hf hd => ?_⟩
  · simp [generateLeagueNewsFromAPI, hf, goSliceTo, Nat.not_le.mpr hd]
  · simp [generatePremierLeagueNewsFromAPI, hf, goSliceTo,
      Nat.not_le.mpr hd]
  · simp only [generateLeagueNewsFromAPI, hf, goSliceTo_of_le _ hd]
    repeat' split
    all_goals
      simp_all [withEvents_fst,
        fetchPerplexity_fst_ne_panicked env.perplexityKeySet
          env.perplexityResp ln m hd,
        leagueRetryStep_fst_ne_panicked env ln m hd]

/-- Run for the witness of claim C10: the data source returns a match
whose UtcDate has only 4 characters. -/
def c10Env : Env :=
  { fetchResult := .ok
      { homeTeamName := "Shamrock Rovers".toList
        awayTeamName := "Bohemians".toList
        utcDate := "2024".toList
        status := "FINISHED".toList
        fullTimeHome := 1
        fullTimeAway := 1 }
    geminiResp1 := .ok [["Some tweet".toList]]
    geminiResp2 := .ok [["Some tweet".toList]]
    perplexityKeySet := true
    perplexityResp := .ok ["Some tweet".toList]
    postResult := .ok }

/-- Concrete instantiation of `c10_utc_date_slice_totality`: the run
panics on the 4-character date. -/
theorem c10_utc_date_slice_totality_witness :
    generateLeagueNewsFromAPI c10Env ("IrishPremierDivision".toList) =
      (.panicked, []) :=
  c10_utc_date_slice_totality.1 c10Env ("IrishPremierDivision".toList)
    { homeTeamName := "Shamrock Rovers".toList
      awayTeamName := "Bohemians".toList
      utcDate := "2024".toList
      status := "FINISHED".toList
      fullTimeHome := 1
      fullTimeAway := 1 }
    (by decide) (by decide)

end NewsBotModel
